import Mathlib

/-!
Shallow embedding of the residential plot/structure subsystem:
the `Plot` container (assignment, collision-checked structure placement,
clearing, serialization), the structure catalog, and the `PlotService`
orchestration layer.  Host-engine collaborators (the collision oracle,
instance identity, the structure-instance spawn/destroy/serialize helpers
and the ordered `LinkedList` container, whose sources are not part of the
excerpt) are modelled explicitly and marked as such in their doc comments.
-/

namespace Residential

/-- A rigid transform of the host engine.  The embedding keeps only the
translation component, composed additively by `CFrame.mul`; the claims under
study depend only on transforms being composable and distinguishable. -/
structure CFrame where
  x : Int
  y : Int
  z : Int
deriving DecidableEq, Repr

/-- Source: `platform.CFrame.mul(cframe)` — transform composition. -/
def CFrame.mul (a b : CFrame) : CFrame :=
  ⟨a.x + b.x, a.y + b.y, a.z + b.z⟩

/-- The identity transform. -/
def CFrame.identity : CFrame := ⟨0, 0, 0⟩

/-- Source: `structure.serialize(platformCFrame)` serializes relative to a
reference transform; relativization is the inverse of composition. -/
def CFrame.relativeTo (a b : CFrame) : CFrame :=
  ⟨a.x - b.x, a.y - b.y, a.z - b.z⟩

/-- A `BasePart` of the host engine: a transform plus the two physics flags
the plot code toggles (`Anchored`, `CanCollide`). -/
structure Part where
  cframe : CFrame
  anchored : Bool
  canCollide : Bool
deriving DecidableEq, Repr

/-- A `Model` of the host engine: an optional `PrimaryPart` plus a numeric
identity standing for host-engine object identity (two clones are distinct
world objects even when geometrically equal). -/
structure Model where
  modelId : Nat
  primaryPart : Option Part
deriving DecidableEq, Repr

/-- Source: `shared/lib/residential/currency` exports `Koins`; other
currencies may exist, the catalog excerpt uses only `Koins`. -/
inductive Currency
  | koins
  | other
deriving DecidableEq, Repr

/-- Source: `types.d.ts`, `Price = { value, currency }`. -/
structure Price where
  value : Int
  currency : Currency
deriving DecidableEq, Repr

/-- Source: `types.d.ts`, `IStructure`: immutable catalog entry. -/
structure Structure where
  id : String
  name : String
  description : String
  model : Model
  price : Price
deriving DecidableEq, Repr

/-- Source: `types.d.ts`, `IStructureInstance`: a placed occurrence of a
`Structure`; `model` is the live handle set by `spawn`. -/
structure StructureInstance where
  uuid : String
  struct : Structure
  model : Option Model
deriving DecidableEq, Repr

/-- A host player; only the name is observable in the excerpt. -/
structure Player where
  name : String
deriving DecidableEq, Repr

/-- A host character, passed to the collision oracle as an exclusion list. -/
structure Character where
  charId : Nat
deriving DecidableEq, Repr

/-- The host-world representation of a plot: the children of its
`PLOT_STRUCTURES_FOLDER_NAME` folder, its optional platform `BasePart`
(`FindFirstChild(PLATFORM_INSTANCE_NAME)`), and a counter standing for the
host's fresh-object-identity supply used when models are cloned. -/
structure PlotInstance where
  structuresChildren : List Model
  platform : Option Part
  nextModelId : Nat
deriving DecidableEq, Repr

/-- Modelled from the spec: the `LinkedList` ordered-map source is not in
the excerpt.  Per the spec it is a mapping preserving insertion order with
unique keys; re-inserting an existing key overwrites in place (the spec
leaves the duplicate-key policy open; the claims proved below do not depend
on the choice between overwrite-in-place and move-to-end). -/
abbrev LinkedList (K V : Type) := List (K × V)

/-- Modelled from the spec: `LinkedList.add` — overwrite if present,
append otherwise. -/
def LinkedList.add {K V : Type} [DecidableEq K] (l : LinkedList K V) (k : K) (v : V) :
    LinkedList K V :=
  if l.any (fun kv => kv.1 = k) then
    l.map (fun kv => if kv.1 = k then (k, v) else kv)
  else
    l ++ [(k, v)]

/-- Source: `Plot` — optional assigned player, host-world handle, ordered
map from instance uuid to `StructureInstance`. -/
structure Plot where
  player : Option Player
  plotInstance : PlotInstance
  structureList : LinkedList String StructureInstance
deriving DecidableEq, Repr

/-- The error kinds raised by the plot subsystem (spec §7). -/
inductive PlotError
  | primaryPartMissing (structureId : String)
  | placementCollision
  | platformMissing
  | alreadyAssigned
  | objectLeak
  | plotNotFound (playerName : String)
  | structureNotFound (structureId : String)
deriving DecidableEq, Repr

/-- Observable interactions with the host engine, recorded as a trace so
that ordering claims (collision query before spawn, destruction of each
instance) can be stated. -/
inductive PlotEvent
  | queryCollision (hitbox : Part)
  | spawnModel (m : Model)
  | destroyInstance (uuid : String)
deriving DecidableEq, Repr

/-- Modelled from the spec: `StructureInstance.spawn(parent)` (source not
in the excerpt) clones the structure's template model into the plot's
structures folder and stores the live handle on the instance.  The clone
receives a fresh host identity. -/
def StructureInstance.spawn (inst : StructureInstance) (pi : PlotInstance) :
    Model × StructureInstance × PlotInstance :=
  let m : Model := ⟨pi.nextModelId, inst.struct.model.primaryPart⟩
  (m, { inst with model := some m },
    { pi with
        structuresChildren := pi.structuresChildren ++ [m]
        nextModelId := pi.nextModelId + 1 })

/-- Modelled from the spec: `StructureInstance.destroy()` (source not in
the excerpt) destroys the instance's spawned world representation, removing
it from its parent folder; a no-op when nothing was spawned. -/
def StructureInstance.destroy (inst : StructureInstance) (pi : PlotInstance) :
    PlotInstance :=
  match inst.model with
  | none => pi
  | some m =>
      { pi with
          structuresChildren :=
            pi.structuresChildren.filter (fun c => c.modelId ≠ m.modelId) }

/-- Modelled from the spec: the instance serializer (source not in the
excerpt) produces one entry per placed instance, given an optional
reference transform: relative to it when present, world-absolute
otherwise. -/
structure SerializedStructureInstance where
  uuid : String
  structureId : String
  cframe : CFrame
deriving DecidableEq, Repr

/-- Modelled from the spec: `structure.serialize(platformCFrame)`. -/
def StructureInstance.serialize (inst : StructureInstance)
    (platformCFrame : Option CFrame) : SerializedStructureInstance :=
  let world : CFrame :=
    match inst.model with
    | some m =>
        match m.primaryPart with
        | some pp => pp.cframe
        | none => CFrame.identity
    | none => CFrame.identity
  match platformCFrame with
  | some pc => ⟨inst.uuid, inst.struct.id, world.relativeTo pc⟩
  | none => ⟨inst.uuid, inst.struct.id, world⟩

/-- Source: `SerializedPlotInstance = { structures: SerializedStructureInstance[] }`. -/
structure SerializedPlotInstance where
  structures : List SerializedStructureInstance
deriving DecidableEq, Repr

/-- The collision oracle boundary (spec §6): the host-provided predicate
`hitboxIsCollidedInPlot(hitbox, plotInstance, excludedCharacters)`.  The
embedding passes it as a parameter. -/
abbrev CollisionOracle := Part → PlotInstance → List Character → Bool

/-- Source: `Plot.isAssigned()`. -/
def Plot.isAssigned (p : Plot) : Bool :=
  p.player.isSome

/-- Source: `Plot.getPlayer()`. -/
def Plot.getPlayer (p : Plot) : Option Player :=
  p.player

/-- Source: `Plot.getPlatform()`. -/
def Plot.getPlatform (p : Plot) : Option Part :=
  p.plotInstance.platform

/-- Source: `Plot.assignPlayer(player)` — asserts the plot is unassigned
before storing the player; the assertion failure is `alreadyAssigned` and
happens before any mutation. -/
def Plot.assignPlayer (p : Plot) (player : Player) : Plot × Option PlotError :=
  match p.player with
  | some _ => (p, some .alreadyAssigned)
  | none => ({ p with player := some player }, none)

/-- Result of an operation that may throw after mutating host state: the
state reached, the host-interaction trace, and the error if one was
thrown. -/
structure OpResult where
  plot : Plot
  events : List PlotEvent
  error : Option PlotError
deriving DecidableEq, Repr

/-- Source: `Plot.addStructure(structureInstance, cframe,
positionRelativeToPlatform)` — in source order: read the template's
`PrimaryPart` (throw if absent), query `hitboxIsCollidedInPlot` with that
part (throw on collision), spawn the model into the structures folder,
re-check the spawned `PrimaryPart`, set `Anchored`/`CanCollide`, compose
with the platform transform when requested (throw if the platform is
absent), `PivotTo` the final transform, and only then register the
instance in the structure map. -/
def Plot.addStructure (oracle : CollisionOracle) (chars : List Character)
    (p : Plot) (structureInstance : StructureInstance) (cframe : CFrame)
    (positionRelativeToPlatform : Bool) : OpResult :=
  match structureInstance.struct.model.primaryPart with
  | none => ⟨p, [], some (.primaryPartMissing structureInstance.struct.id)⟩
  | some tempHitbox =>
    if oracle tempHitbox p.plotInstance chars then
      ⟨p, [.queryCollision tempHitbox], some .placementCollision⟩
    else
      let spawned := structureInstance.spawn p.plotInstance
      let newStructure := spawned.1
      let inst1 := spawned.2.1
      let pi1 := spawned.2.2
      let events := [PlotEvent.queryCollision tempHitbox, PlotEvent.spawnModel newStructure]
      match newStructure.primaryPart with
      | none =>
          ⟨{ p with plotInstance := pi1 }, events,
            some (.primaryPartMissing structureInstance.struct.id)⟩
      | some pp =>
        let m1 : Model := ⟨newStructure.modelId, some { pp with anchored := true, canCollide := false }⟩
        let pi2 :=
          { pi1 with
              structuresChildren :=
                pi1.structuresChildren.map (fun c => if c.modelId = m1.modelId then m1 else c) }
        if positionRelativeToPlatform then
          match p.plotInstance.platform with
          | none => ⟨{ p with plotInstance := pi2 }, events, some .platformMissing⟩
          | some platform =>
              let cf := platform.cframe.mul cframe
              let m2 : Model := ⟨m1.modelId, some { pp with cframe := cf, anchored := true, canCollide := false }⟩
              let pi3 :=
                { pi2 with
                    structuresChildren :=
                      pi2.structuresChildren.map (fun c => if c.modelId = m2.modelId then m2 else c) }
              let inst2 := { inst1 with model := some m2 }
              ⟨{ p with
                   plotInstance := pi3
                   structureList := p.structureList.add inst2.uuid inst2 },
                events, none⟩
        else
          let m2 : Model := ⟨m1.modelId, some { pp with cframe := cframe, anchored := true, canCollide := false }⟩
          let pi3 :=
            { pi2 with
                structuresChildren :=
                  pi2.structuresChildren.map (fun c => if c.modelId = m2.modelId then m2 else c) }
          let inst2 := { inst1 with model := some m2 }
          ⟨{ p with
               plotInstance := pi3
               structureList := p.structureList.add inst2.uuid inst2 },
            events, none⟩

/-- Source: `Plot.clear()` — destroys every registered instance's world
representation in map order, then asserts the structures folder has no
children left, raising the object-leak error otherwise.  Neither the
structure map nor the player field is touched. -/
def Plot.clear (p : Plot) : OpResult :=
  let pi1 := p.structureList.foldl (fun acc kv => kv.2.destroy acc) p.plotInstance
  let events := p.structureList.map (fun kv => PlotEvent.destroyInstance kv.1)
  if pi1.structuresChildren.isEmpty then
    ⟨{ p with plotInstance := pi1 }, events, none⟩
  else
    ⟨{ p with plotInstance := pi1 }, events, some .objectLeak⟩

/-- Source: `Plot.unassignPlayer()` — returns immediately when no player is
assigned, otherwise calls `clear()`.  (The source never resets the `player`
field or empties the structure map.) -/
def Plot.unassignPlayer (p : Plot) : OpResult :=
  match p.player with
  | none => ⟨p, [], none⟩
  | some _ => p.clear

/-- Source: `Plot.serialize()` — looks up the platform part and maps the
instance serializer over the structure map. -/
def Plot.serialize (p : Plot) : SerializedPlotInstance :=
  let platformCFrame := p.plotInstance.platform.map Part.cframe
  ⟨p.structureList.map (fun kv => kv.2.serialize platformCFrame)⟩

/-- Source: `Plot.getEmptySerializedPlotInstance()`. -/
def Plot.getEmptySerializedPlotInstance : SerializedPlotInstance :=
  ⟨[]⟩

/-- Source: `types.d.ts`, `IStructureCategory` — a named grouping of
structures with query operations. -/
structure StructureCategory where
  id : String
  icon : String
  verboseName : String
  verboseNamePlural : String
  description : String
  structures : List Structure
deriving DecidableEq, Repr

/-- Modelled from the spec: `BaseCategory.getStructureById` (source not in
the excerpt) — lookup by id over the category's structure list, returning
the structure or the not-found sentinel. -/
def StructureCategory.getStructureById (c : StructureCategory) (id : String) :
    Option Structure :=
  c.structures.find? (fun s => s.id = id)

/-- Source: `categories/Residential` road-intersection entry — id
`"road-intersection"`, name `"Intersection"`, price 100 Koins.  Its model
is a host asset (`MODELS_FOLDER.Road.NormalRoad`), embedded as a concrete
model with a primary part at the template origin. -/
def roadIntersection : Structure :=
  { id := "road-intersection"
    name := "Intersection"
    description := "An intersection."
    model := ⟨0, some ⟨CFrame.identity, false, false⟩⟩
    price := { value := 100, currency := .koins } }

/-- Source: `categories/Residential/index.ts` — the residential category.
Its structure list is produced by `loadStructures(script)` (source not in
the excerpt); modelled from the spec as the fixed list of the category's
structure modules, which in the excerpt is the road-intersection entry. -/
def residentialCategory : StructureCategory :=
  { id := "residential"
    icon := "rbxassetid://0"
    verboseName := "Residential"
    verboseNamePlural := "Residentials"
    description := "Residential structures are used to house citizens."
    structures := [roadIntersection] }

/-- Modelled from the spec: `getStructureById` from
`structures/utils/get-structures` (source not in the excerpt) — resolves a
structure id across the catalog's categories; unknown ids yield the
not-found sentinel. -/
def getStructureById (categories : List StructureCategory) (id : String) :
    Option Structure :=
  categories.foldr (fun c acc => (c.getStructureById id).orElse (fun _ => acc)) none

/-- Modelled from the spec: the `PlotFactory` registry (source not in the
excerpt) — which plot, if any, is assigned to a player.  `PlotService`
reads it through `getPlayersPlot`. -/
structure PlotServiceState where
  plots : List (Player × Plot)
deriving DecidableEq, Repr

/-- Modelled from the spec: `PlotFactory.getPlayersPlot(player)`. -/
def PlotServiceState.getPlayersPlot (st : PlotServiceState) (player : Player) :
    Option Plot :=
  (st.plots.find? (fun kv => kv.1 = player)).map Prod.snd

/-- Replacing a player's plot in the registry after a placement mutated it. -/
def PlotServiceState.updatePlot (st : PlotServiceState) (player : Player)
    (plot : Plot) : PlotServiceState :=
  ⟨st.plots.map (fun kv => if kv.1 = player then (kv.1, plot) else kv)⟩

/-- Result of a `PlotService.placeStructure` call: the registry state
reached, the host trace, and the error if one was raised. -/
structure PlaceResult where
  state : PlotServiceState
  events : List PlotEvent
  error : Option PlotError
deriving DecidableEq, Repr

/-- Source: `PlotService.placeStructure(player, structureId, cframe,
structureUUID?)` — asserts the player has a plot, asserts the structure id
resolves in the catalog, defaults the uuid to the empty string when the
optional argument is omitted, and delegates to the plot's `addStructure`
with a fresh `StructureInstance` (no third argument, so placement is not
platform-relative). -/
def PlotService.placeStructure (oracle : CollisionOracle) (chars : List Character)
    (categories : List StructureCategory) (st : PlotServiceState)
    (player : Player) (structureId : String) (cframe : CFrame)
    (structureUUID : Option String) : PlaceResult :=
  match st.getPlayersPlot player with
  | none => ⟨st, [], some (.plotNotFound player.name)⟩
  | some playersPlot =>
    match getStructureById categories structureId with
    | none => ⟨st, [], some (.structureNotFound structureId)⟩
    | some s =>
      let uuid := structureUUID.getD ""
      let r := playersPlot.addStructure oracle chars ⟨uuid, s, none⟩ cframe false
      ⟨st.updatePlot player r.plot, r.events, r.error⟩

/-! ### Concrete fixtures used by closed theorems -/

/-- An assigned plot with one registered (never-spawned) instance, an empty
structures folder and no platform. -/
def assignedPlotWithEntry : Plot :=
  { player := some ⟨"P1"⟩
    plotInstance := ⟨[], none, 0⟩
    structureList := [("u1", ⟨"u1", roadIntersection, none⟩)] }

/-- An assigned plot with no structures. -/
def assignedPlotA : Plot :=
  { player := some ⟨"P1"⟩
    plotInstance := ⟨[], none, 0⟩
    structureList := [] }

/-- A collision oracle that always reports a free placement. -/
def freeOracle : CollisionOracle := fun _ _ _ => false

/-! ### Theorems -/

/-- C7: in the residential catalog, which contains the road-intersection
structure (price amount 100, currency Koins), `getStructureById
"road-intersection"` returns that structure and `getStructureById
"nonexistent"` returns the not-found sentinel. -/
theorem getStructureById_road_intersection_scenario :
    residentialCategory.getStructureById "road-intersection" = some roadIntersection ∧
    roadIntersection.price.value = 100 ∧
    roadIntersection.price.currency = Currency.koins ∧
    residentialCategory.getStructureById "nonexistent" = none := by
  refine ⟨rfl, rfl, rfl, rfl⟩

/-- C2 (failing input): on a plot assigned to a player with one registered
instance and a clean structures folder, `unassignPlayer` completes without
error yet leaves the plot assigned (`isAssigned` still `true`) and the
structure map non-empty — the source never resets the `player` field or
empties the map, contradicting its own doc comment ("Unassigns the player
from the plot") and the spec's Unassigned end state. -/
theorem unassignPlayer_does_not_unassign :
    (assignedPlotWithEntry.unassignPlayer).error = none ∧
    (assignedPlotWithEntry.unassignPlayer).plot.isAssigned = true ∧
    (assignedPlotWithEntry.unassignPlayer).plot.structureList ≠ [] := by
  refine ⟨rfl, rfl, by decide⟩

/-- C4: `assignPlayer` on an already-assigned plot fails with
`alreadyAssigned`, and the failed call leaves the plot's player reference
unchanged. -/
theorem assignPlayer_already_assigned (p : Plot) (q : Player) (player : Player)
    (h : p.player = some q) :
    (p.assignPlayer player).2 = some PlotError.alreadyAssigned ∧
    (p.assignPlayer player).1.player = p.player := by
  unfold Plot.assignPlayer
  rw [h]
  exact ⟨rfl, h⟩

/-- C4 witness: the theorem applied to a concrete assigned plot. -/
theorem assignPlayer_already_assigned_witness :
    (assignedPlotA.assignPlayer ⟨"P2"⟩).2 = some PlotError.alreadyAssigned ∧
    (assignedPlotA.assignPlayer ⟨"P2"⟩).1.player = assignedPlotA.player :=
  assignPlayer_already_assigned assignedPlotA ⟨"P1"⟩ ⟨"P2"⟩ rfl

/-- Helper: the structure map after `addStructure` — unchanged on every
failing run; on success it is exactly the old map with the instance
registered in final position under its own uuid (with the live model handle
filled in). -/
theorem addStructure_structureList_cases (oracle : CollisionOracle)
    (chars : List Character) (p : Plot) (inst : StructureInstance)
    (cframe : CFrame) (rel : Bool) :
    ((p.addStructure oracle chars inst cframe rel).error = none →
       ∃ m, (p.addStructure oracle chars inst cframe rel).plot.structureList
         = p.structureList.add inst.uuid ⟨inst.uuid, inst.struct, some m⟩) ∧
    ((p.addStructure oracle chars inst cframe rel).error ≠ none →
       (p.addStructure oracle chars inst cframe rel).plot.structureList = p.structureList) := by
  unfold Plot.addStructure
  cases hpp : inst.struct.model.primaryPart with
  | none => simp
  | some hb =>
    by_cases ho : oracle hb p.plotInstance chars
    · simp [ho]
    · simp only [ho, if_false, StructureInstance.spawn, hpp]
      cases rel with
      | false =>
        simp
        exact ⟨_, rfl⟩
      | true =>
        cases hplat : p.plotInstance.platform with
        | none => simp
        | some platform =>
          simp
          exact ⟨_, rfl⟩

/-- C1: `addStructure` never partially registers: any failing run (missing
primary part, placement collision, missing platform) leaves the plot's
structure map exactly as it was, and a successful run changes it only by
registering the placed instance — registration is the final step. -/
theorem addStructure_failure_leaves_map_untouched (oracle : CollisionOracle)
    (chars : List Character) (p : Plot) (inst : StructureInstance)
    (cframe : CFrame) (rel : Bool) :
    ((p.addStructure oracle chars inst cframe rel).error ≠ none →
       (p.addStructure oracle chars inst cframe rel).plot.structureList = p.structureList) ∧
    ((p.addStructure oracle chars inst cframe rel).error = none →
       ∃ m, (p.addStructure oracle chars inst cframe rel).plot.structureList
         = p.structureList.add inst.uuid ⟨inst.uuid, inst.struct, some m⟩) :=
  ⟨(addStructure_structureList_cases oracle chars p inst cframe rel).2,
   (addStructure_structureList_cases oracle chars p inst cframe rel).1⟩

/-- C3 (amended): the collision query always passes the structure template's
own primary part, unmoved — the requested transform is never applied to
it — and the query strictly precedes the spawn: the host trace is empty
(missing primary part), the query alone (collision), or the query followed
by the spawn. -/
theorem addStructure_query_precedes_spawn (oracle : CollisionOracle)
    (chars : List Character) (p : Plot) (inst : StructureInstance)
    (cframe : CFrame) (rel : Bool) :
    (p.addStructure oracle chars inst cframe rel).events = [] ∨
    (∃ hb, inst.struct.model.primaryPart = some hb ∧
      ((p.addStructure oracle chars inst cframe rel).events
          = [PlotEvent.queryCollision hb] ∨
       (p.addStructure oracle chars inst cframe rel).events
          = [PlotEvent.queryCollision hb,
             PlotEvent.spawnModel ⟨p.plotInstance.nextModelId, some hb⟩])) := by
  unfold Plot.addStructure
  cases hpp : inst.struct.model.primaryPart with
  | none =>
    left
    rfl
  | some hb =>
    right
    refine ⟨hb, rfl, ?_⟩
    by_cases ho : oracle hb p.plotInstance chars
    · left
      simp [ho]
    · right
      simp only [ho, if_false, StructureInstance.spawn, hpp]
      cases rel with
      | false => simp
      | true =>
        cases hplat : p.plotInstance.platform with
        | none => simp
        | some platform => simp

/-- C3 (counterexample to the claim as stated): a concrete placement whose
requested transform is a translation by 5, while the collision oracle is
queried with the template's primary part still at the origin — the query
does not see the structure "placed at the requested transform". -/
theorem addStructure_query_ignores_requested_transform :
    ((assignedPlotA.addStructure freeOracle [] ⟨"u1", roadIntersection, none⟩
        ⟨5, 0, 0⟩ false).events.head?
      = some (PlotEvent.queryCollision ⟨⟨0, 0, 0⟩, false, false⟩)) ∧
    (⟨0, 0, 0⟩ : CFrame) ≠ (⟨5, 0, 0⟩ : CFrame) := by
  refine ⟨rfl, by decide⟩

/-- C9: on a plot with no platform, a collision-free placement requested
relative to the platform throws `platformMissing` only after the model was
spawned into the structures folder: the call fails, the structure map is
unchanged, yet the folder has gained the spawned (anchored, non-colliding)
model — a world object registered nowhere. -/
theorem addStructure_missing_platform_spawns_unregistered
    (oracle : CollisionOracle) (chars : List Character) (p : Plot)
    (inst : StructureInstance) (cframe : CFrame) (hb : Part)
    (hfresh : ∀ c ∈ p.plotInstance.structuresChildren,
        c.modelId < p.plotInstance.nextModelId)
    (hplat : p.plotInstance.platform = none)
    (hpp : inst.struct.model.primaryPart = some hb)
    (ho : oracle hb p.plotInstance chars = false) :
    (p.addStructure oracle chars inst cframe true).error
        = some PlotError.platformMissing ∧
    (p.addStructure oracle chars inst cframe true).plot.structureList
        = p.structureList ∧
    (p.addStructure oracle chars inst cframe true).plot.plotInstance.structuresChildren
        = p.plotInstance.structuresChildren
            ++ [⟨p.plotInstance.nextModelId, some ⟨hb.cframe, true, false⟩⟩] := by
  unfold Plot.addStructure
  rw [hpp]
  simp only [ho, if_false, StructureInstance.spawn, hpp, hplat, if_true]
  refine ⟨rfl, rfl, ?_⟩
  simp only [List.map_append]
  have hold : p.plotInstance.structuresChildren.map
      (fun c => if c.modelId = p.plotInstance.nextModelId then
        (⟨p.plotInstance.nextModelId, some ⟨hb.cframe, true, false⟩⟩ : Model) else c)
      = p.plotInstance.structuresChildren := by
    rw [List.map_congr_left ?_]
    · exact List.map_id' _
    · intro c hc
      have := hfresh c hc
      simp only [Nat.ne_of_lt this, if_false]
  simp [hold]

/-- C9 witness: the theorem applied to an assigned, platform-free plot,
the road-intersection instance and a free oracle. -/
theorem addStructure_missing_platform_spawns_unregistered_witness :
    (assignedPlotA.addStructure freeOracle [] ⟨"u1", roadIntersection, none⟩
        ⟨1, 2, 3⟩ true).error = some PlotError.platformMissing ∧
    (assignedPlotA.addStructure freeOracle [] ⟨"u1", roadIntersection, none⟩
        ⟨1, 2, 3⟩ true).plot.structureList = assignedPlotA.structureList ∧
    (assignedPlotA.addStructure freeOracle [] ⟨"u1", roadIntersection, none⟩
        ⟨1, 2, 3⟩ true).plot.plotInstance.structuresChildren
      = assignedPlotA.plotInstance.structuresChildren
          ++ [⟨assignedPlotA.plotInstance.nextModelId, some ⟨⟨0, 0, 0⟩, true, false⟩⟩] :=
  addStructure_missing_platform_spawns_unregistered freeOracle []
    assignedPlotA ⟨"u1", roadIntersection, none⟩ ⟨1, 2, 3⟩ ⟨⟨0, 0, 0⟩, false, false⟩
    (by simp [assignedPlotA]) rfl rfl rfl

/-- C6: `serialize` returns the empty snapshot on an empty structure map,
and in general one entry per registered instance in map (insertion) order,
each serialized against the platform transform when a platform exists and
world-absolute otherwise. -/
theorem serialize_matches_structure_map (p : Plot) :
    (p.structureList = [] → p.serialize = Plot.getEmptySerializedPlotInstance) ∧
    p.serialize.structures
      = p.structureList.map
          (fun kv => kv.2.serialize (p.plotInstance.platform.map Part.cframe)) := by
  constructor
  · intro h
    unfold Plot.serialize Plot.getEmptySerializedPlotInstance
    rw [h]
    rfl
  · rfl

/-- Helper: destroying an instance only ever removes children from the
structures folder. -/
theorem destroy_children_subset (inst : StructureInstance) (pi : PlotInstance) :
    ∀ c ∈ (inst.destroy pi).structuresChildren, c ∈ pi.structuresChildren := by
  unfold StructureInstance.destroy
  cases inst.model with
  | none => intro c hc; exact hc
  | some m =>
    intro c hc
    exact (List.mem_filter.mp hc).1

/-- Helper: the fold of `destroy` over the structure map only ever removes
children. -/
theorem destroyAll_children_subset (l : List (String × StructureInstance)) :
    ∀ pi : PlotInstance,
      ∀ c ∈ (l.foldl (fun acc kv => kv.2.destroy acc) pi).structuresChildren,
        c ∈ pi.structuresChildren := by
  induction l with
  | nil => intro pi c hc; exact hc
  | cons a t ih =>
    intro pi c hc
    exact destroy_children_subset a.2 pi c (ih (a.2.destroy pi) c hc)

/-- Helper: after folding `destroy` over the map, no child with the identity
of a registered instance's model remains. -/
theorem destroyAll_removes (l : List (String × StructureInstance)) :
    ∀ pi : PlotInstance, ∀ kv ∈ l, ∀ m, kv.2.model = some m →
      ∀ c ∈ (l.foldl (fun acc kv => kv.2.destroy acc) pi).structuresChildren,
        c.modelId ≠ m.modelId := by
  induction l with
  | nil =>
    intro pi kv hkv
    exact absurd hkv (List.not_mem_nil kv)
  | cons a t ih =>
    intro pi kv hkv m hm c hc
    rcases List.mem_cons.mp hkv with heq | htail
    · subst heq
      have hc1 : c ∈ (kv.2.destroy pi).structuresChildren :=
        destroyAll_children_subset t (kv.2.destroy pi) c hc
      unfold StructureInstance.destroy at hc1
      rw [hm] at hc1
      simpa using (List.mem_filter.mp hc1).2
    · exact ih (a.2.destroy pi) kv htail m hm c hc

/-- C5: `clear` issues a destroy for every registered instance in map
order; afterwards no child carrying a registered instance's model identity
remains in the structures folder, and the call reports no error exactly
when the folder ends empty — any remaining child raises the object-leak
error rather than passing silently. -/
theorem clear_destroys_and_detects_leaks (p : Plot) :
    (p.clear).events = p.structureList.map (fun kv => PlotEvent.destroyInstance kv.1) ∧
    (∀ kv ∈ p.structureList, ∀ m, kv.2.model = some m →
       ∀ c ∈ (p.clear).plot.plotInstance.structuresChildren, c.modelId ≠ m.modelId) ∧
    ((p.clear).error = none ↔ (p.clear).plot.plotInstance.structuresChildren = []) ∧
    ((p.clear).error = none ∨ (p.clear).error = some PlotError.objectLeak) := by
  unfold Plot.clear
  by_cases hempty :
      (p.structureList.foldl (fun acc kv => kv.2.destroy acc) p.plotInstance).structuresChildren.isEmpty
  · refine ⟨by simp [hempty], ?_, by simp [hempty, List.isEmpty_iff.mp hempty], by simp [hempty]⟩
    intro kv hkv m hm c hc
    simp only [hempty, if_true] at hc
    exact destroyAll_removes p.structureList p.plotInstance kv hkv m hm c hc
  · refine ⟨by simp [hempty], ?_, ?_, by simp [hempty]⟩
    · intro kv hkv m hm c hc
      simp only [hempty, if_false] at hc
      exact destroyAll_removes p.structureList p.plotInstance kv hkv m hm c hc
    · simp only [hempty, if_false]
      constructor
      · intro h
        exact absurd h (by simp)
      · intro h
        exact absurd (List.isEmpty_iff.mpr h) hempty

/-- C8: `placeStructure` fails before touching any plot when the requesting
player has no assigned plot (plot-not-found) or, the plot existing, when
the structure id does not resolve in the catalog (structure-not-found); in
the remaining case it delegates to the player's plot's `addStructure` with
a fresh instance and a non-platform-relative placement. -/
theorem placeStructure_guards_and_delegates (oracle : CollisionOracle)
    (chars : List Character) (categories : List StructureCategory)
    (st : PlotServiceState) (player : Player) (structureId : String)
    (cframe : CFrame) (structureUUID : Option String) :
    (st.getPlayersPlot player = none →
       PlotService.placeStructure oracle chars categories st player structureId cframe structureUUID
         = ⟨st, [], some (.plotNotFound player.name)⟩) ∧
    (∀ plot, st.getPlayersPlot player = some plot →
       getStructureById categories structureId = none →
       PlotService.placeStructure oracle chars categories st player structureId cframe structureUUID
         = ⟨st, [], some (.structureNotFound structureId)⟩) ∧
    (∀ plot s, st.getPlayersPlot player = some plot →
       getStructureById categories structureId = some s →
       PlotService.placeStructure oracle chars categories st player structureId cframe structureUUID
         = ⟨st.updatePlot player
              (plot.addStructure oracle chars ⟨structureUUID.getD "", s, none⟩ cframe false).plot,
            (plot.addStructure oracle chars ⟨structureUUID.getD "", s, none⟩ cframe false).events,
            (plot.addStructure oracle chars ⟨structureUUID.getD "", s, none⟩ cframe false).error⟩) := by
  refine ⟨?_, ?_, ?_⟩
  · intro h
    unfold PlotService.placeStructure
    rw [h]
  · intro plot hplot hs
    unfold PlotService.placeStructure
    rw [hplot, hs]
  · intro plot s hplot hs
    unfold PlotService.placeStructure
    rw [hplot, hs]

/-- Helper: `LinkedList.add` either keeps the key sequence unchanged
(overwrite) or appends the new key at the end; it never produces any other
key. -/
theorem LinkedList.add_keys {K V : Type} [DecidableEq K]
    (l : LinkedList K V) (k : K) (v : V) :
    (l.add k v).map Prod.fst = l.map Prod.fst ∨
    (l.add k v).map Prod.fst = l.map Prod.fst ++ [k] := by
  unfold LinkedList.add
  by_cases h : l.any (fun kv => kv.1 = k)
  · left
    rw [if_pos h, List.map_map]
    apply List.map_congr_left
    intro kv _
    by_cases hk : kv.1 = k
    · simp [hk]
    · simp [hk]
  · right
    rw [if_neg h]
    simp

/-- C10: a `placeStructure` call with the optional uuid omitted builds its
`StructureInstance` with the empty string as uuid and delegates with that
key; consequently a successful such placement never registers a fresh
unique key — the plot's key sequence is either unchanged or gains the
shared key `""`. -/
theorem placeStructure_omitted_uuid_shares_key (oracle : CollisionOracle)
    (chars : List Character) (categories : List StructureCategory)
    (st : PlotServiceState) (player : Player) (structureId : String)
    (cframe : CFrame) (plot : Plot) (s : Structure)
    (hplot : st.getPlayersPlot player = some plot)
    (hs : getStructureById categories structureId = some s) :
    (PlotService.placeStructure oracle chars categories st player structureId cframe none
       = ⟨st.updatePlot player
            (plot.addStructure oracle chars ⟨"", s, none⟩ cframe false).plot,
          (plot.addStructure oracle chars ⟨"", s, none⟩ cframe false).events,
          (plot.addStructure oracle chars ⟨"", s, none⟩ cframe false).error⟩) ∧
    ((plot.addStructure oracle chars ⟨"", s, none⟩ cframe false).error = none →
       ((plot.addStructure oracle chars ⟨"", s, none⟩ cframe false).plot.structureList.map Prod.fst
          = plot.structureList.map Prod.fst ∨
        (plot.addStructure oracle chars ⟨"", s, none⟩ cframe false).plot.structureList.map Prod.fst
          = plot.structureList.map Prod.fst ++ [""])) := by
  constructor
  · unfold PlotService.placeStructure
    rw [hplot, hs]
    rfl
  · intro herr
    obtain ⟨m, hm⟩ :=
      (addStructure_structureList_cases oracle chars plot ⟨"", s, none⟩ cframe false).1 herr
    rw [hm]
    exact LinkedList.add_keys plot.structureList "" ⟨"", s, some m⟩

/-- A registry with one player assigned to the empty plot. -/
def serviceStateA : PlotServiceState :=
  ⟨[(⟨"P1"⟩, assignedPlotA)]⟩

/-- C10 witness: the theorem applied to a one-player registry and the
residential catalog, with the uuid argument omitted. -/
theorem placeStructure_omitted_uuid_shares_key_witness :
    (PlotService.placeStructure freeOracle [] [residentialCategory] serviceStateA
        ⟨"P1"⟩ "road-intersection" ⟨1, 2, 3⟩ none
       = ⟨serviceStateA.updatePlot ⟨"P1"⟩
            (assignedPlotA.addStructure freeOracle [] ⟨"", roadIntersection, none⟩
              ⟨1, 2, 3⟩ false).plot,
          (assignedPlotA.addStructure freeOracle [] ⟨"", roadIntersection, none⟩
            ⟨1, 2, 3⟩ false).events,
          (assignedPlotA.addStructure freeOracle [] ⟨"", roadIntersection, none⟩
            ⟨1, 2, 3⟩ false).error⟩) ∧
    ((assignedPlotA.addStructure freeOracle [] ⟨"", roadIntersection, none⟩
        ⟨1, 2, 3⟩ false).error = none →
       ((assignedPlotA.addStructure freeOracle [] ⟨"", roadIntersection, none⟩
           ⟨1, 2, 3⟩ false).plot.structureList.map Prod.fst
          = assignedPlotA.structureList.map Prod.fst ∨
        (assignedPlotA.addStructure freeOracle [] ⟨"", roadIntersection, none⟩
           ⟨1, 2, 3⟩ false).plot.structureList.map Prod.fst
          = assignedPlotA.structureList.map Prod.fst ++ [""])) :=
  placeStructure_omitted_uuid_shares_key freeOracle [] [residentialCategory]
    serviceStateA ⟨"P1"⟩ "road-intersection" ⟨1, 2, 3⟩ assignedPlotA roadIntersection
    rfl rfl

end Residential
